import Mathlib

/-!
Verification of the state-transition and polling engine of `aws-start-stop`,
a CLI tool that starts or stops one EC2 instance and polls until the
transition completes.

The embedding is shallow: each Rust function of `src/aws.rs` and
`src/main.rs` becomes a Lean function over explicit response values.
Network calls are modelled by passing the remote responses (or transport
errors) as arguments; a `.unwrap()` on an optional field that can be `None`
at runtime is modelled by an `Option`-valued result where `none` means the
Rust code panics.
-/

/-- `aws_sdk_ec2::types::InstanceStateName`: the EC2 instance lifecycle
states. The SDK enum is non-exhaustive, so unknown values are carried by
`other`. -/
inductive InstanceStateName where
  | pending
  | running
  | shuttingDown
  | terminated
  | stopping
  | stopped
  | other (s : String)
deriving DecidableEq

/-- `aws_sdk_ec2::types::InstanceState`: wraps an optional state name (the
numeric `code` field is never read by this program). -/
structure InstanceState where
  name : Option InstanceStateName
deriving DecidableEq

/-- The fields of `aws_sdk_ec2::types::Instance` that the program reads
(wrapped by the repository's `Instance` newtype in `src/aws.rs`). -/
structure Instance where
  state : Option InstanceState
  ipv6Address : Option String
  publicIpAddress : Option String
  privateIpAddress : Option String
deriving DecidableEq

/-- `Instance::state` in `src/aws.rs` is
`self.0.state.as_ref().unwrap().name.as_ref().unwrap()`: it unwraps both
optional layers. We model it totally: `none` means the Rust method panics. -/
def Instance.stateName (i : Instance) : Option InstanceStateName :=
  i.state.bind fun st => st.name

/-- The error values produced with `eyre!` in `src/aws.rs`, plus `transport`
for an error of the underlying SDK call propagated by `?`. -/
inductive AwsErr where
  | instanceNotFound
  | tooManyReservations
  | tooManyInstances
  | tooManyInstancesStarted
  | tooManyInstancesStopped
  | wrongInstanceStarted
  | wrongInstanceStopped
  | failedToStart
  | failedToStop
  | abnormalState (current desired : InstanceStateName)
  | invalidDesiredState (desired : InstanceStateName)
  | ssmReturnedNothing
  | ssmUnknownStatus (s : String)
  | transport (msg : String)
deriving DecidableEq

/-- `check_state` from `src/aws.rs` (lines 165-195): classifies the current
state against the desired state. `Ok false` = in progress, `Ok true` =
arrived, `Err` = abnormal state or invalid desired state. -/
def check_state (current_state desired_state : InstanceStateName) :
    Except AwsErr Bool :=
  if desired_state = .running then
    match current_state with
    | .pending => .ok false
    | .running => .ok true
    | _ => .error (.abnormalState current_state desired_state)
  else if desired_state = .stopped then
    match current_state with
    | .stopping => .ok false
    | .stopped => .ok true
    | _ => .error (.abnormalState current_state desired_state)
  else
    .error (.invalidDesiredState desired_state)

/-- C1: for desired state in \x7bRunning, Stopped\x7d, `check_state` returns
in-progress (`Ok false`) exactly on (Pending, Running) and
(Stopping, Stopped), arrived (`Ok true`) exactly when current equals
desired, and the abnormal-state error on every other current state. -/
theorem check_state_classification (current desired : InstanceStateName)
    (hd : desired = .running ∨ desired = .stopped) :
    (check_state current desired = .ok false ↔
      ((current = .pending ∧ desired = .running) ∨
        (current = .stopping ∧ desired = .stopped))) ∧
    (check_state current desired = .ok true ↔ current = desired) ∧
    (¬ ((current = .pending ∧ desired = .running) ∨
          (current = .stopping ∧ desired = .stopped)) →
      current ≠ desired →
      check_state current desired = .error (.abnormalState current desired)) := by
  rcases hd with hd | hd <;> subst hd <;>
    cases current <;> simp [check_state]

/-- Witness for `check_state_classification` at (Terminated, Running):
an abnormal combination is classified as the abnormal-state error. -/
theorem check_state_classification_witness :
    check_state .terminated .running =
      .error (.abnormalState .terminated .running) := by
  have h := check_state_classification .terminated .running (Or.inl rfl)
  exact h.2.2 (by simp) (by simp)

/-- `aws_sdk_ec2::types::Reservation`: the field the program reads. -/
structure Reservation where
  instances : Option (List Instance)
deriving DecidableEq

/-- The response of `DescribeInstances`: the fields the program reads. -/
structure DescribeInstancesResponse where
  reservations : Option (List Reservation)
  nextToken : Option String
deriving DecidableEq

/-- `AwsEc2Client::get_instance` from `src/aws.rs` (lines 50-79), applied to
the describe response. `reservations.pop().unwrap()` pops the last element
of a vector already known non-empty, modelled with `getLast?` (the `none`
branches are unreachable and mirror the infallible `unwrap`). A transport
failure of the call itself is a separate fetch outcome handled at the call
sites. -/
def get_instance (response : DescribeInstancesResponse) :
    Except AwsErr Instance :=
  let reservations := response.reservations.getD []
  if reservations.isEmpty then
    .error .instanceNotFound
  else if reservations.length > 1 ∨ response.nextToken.isSome then
    .error .tooManyReservations
  else
    match reservations.getLast? with
    | none => .error .instanceNotFound
    | some reservation =>
      let instance_vec := reservation.instances.getD []
      if instance_vec.isEmpty then
        .error .instanceNotFound
      else if instance_vec.length > 1 then
        .error .tooManyInstances
      else
        match instance_vec.getLast? with
        | none => .error .instanceNotFound
        | some inst => .ok inst

/-- `aws_sdk_ec2::types::InstanceStateChange`: the fields the program
reads. -/
structure InstanceStateChange where
  instanceId : Option String
  currentState : Option InstanceState
deriving DecidableEq

/-- The response of `StartInstances`: the field the program reads. -/
structure StartInstancesResponse where
  startingInstances : Option (List InstanceStateChange)
deriving DecidableEq

/-- The response of `StopInstances`: the field the program reads. -/
structure StopInstancesResponse where
  stoppingInstances : Option (List InstanceStateChange)
deriving DecidableEq

/-- `AwsEc2Client::start_instance` from `src/aws.rs` (lines 81-111), applied
to the start response. The Rust code unwraps `change.instance_id` and
`change.current_state...name`; `none` here means those unwraps panic. -/
def start_instance (instance_id : String) (response : StartInstancesResponse) :
    Option (Except AwsErr InstanceStateName) :=
  let state_changes := response.startingInstances.getD []
  if state_changes.isEmpty then
    some (.error .instanceNotFound)
  else if state_changes.length > 1 then
    some (.error .tooManyInstancesStarted)
  else
    match state_changes.getLast? with
    | none => some (.error .instanceNotFound)
    | some change =>
      match change.instanceId with
      | none => none
      | some id =>
        if id ≠ instance_id then
          some (.error .wrongInstanceStarted)
        else
          match change.currentState.bind fun st => st.name with
          | none => none
          | some current_state =>
            if current_state ≠ .pending ∧ current_state ≠ .running then
              some (.error .failedToStart)
            else
              some (.ok current_state)

/-- `AwsEc2Client::stop_instance` from `src/aws.rs` (lines 113-143): mirror
of `start_instance` with accepted states Stopping and Stopped. -/
def stop_instance (instance_id : String) (response : StopInstancesResponse) :
    Option (Except AwsErr InstanceStateName) :=
  let state_changes := response.stoppingInstances.getD []
  if state_changes.isEmpty then
    some (.error .instanceNotFound)
  else if state_changes.length > 1 then
    some (.error .tooManyInstancesStopped)
  else
    match state_changes.getLast? with
    | none => some (.error .instanceNotFound)
    | some change =>
      match change.instanceId with
      | none => none
      | some id =>
        if id ≠ instance_id then
          some (.error .wrongInstanceStopped)
        else
          match change.currentState.bind fun st => st.name with
          | none => none
          | some current_state =>
            if current_state ≠ .stopping ∧ current_state ≠ .stopped then
              some (.error .failedToStop)
            else
              some (.ok current_state)

/-- Outcome of one run of the polling loop `wait_for_state`. -/
inductive PollResult where
  | arrived (i : Instance)
  | failed (e : AwsErr)
  | panicked
deriving DecidableEq

/-- `AwsEc2Client::wait_for_state` from `src/aws.rs` (lines 145-154): tick,
fetch, classify; return the instance on `Ok(true)`, loop on `Ok(false)`,
propagate the error otherwise. The loop is modelled over the finite
sequence of fetch outcomes (each a fetched `Instance` or a fetch error);
the result pairs the outcome with the number of fetches performed, `none`
meaning the loop is still polling when the sequence runs out. `panicked`
records the `Instance::state` unwrap panicking on a snapshot with no state
field. -/
def wait_for_state (target : InstanceStateName) :
    List (Except AwsErr Instance) → Option (PollResult × Nat)
  | [] => none
  | fetch :: rest =>
    match fetch with
    | .error e => some (.failed e, 1)
    | .ok inst =>
      match inst.stateName with
      | none => some (.panicked, 1)
      | some s =>
        match check_state s target with
        | .error e => some (.failed e, 1)
        | .ok true => some (.arrived inst, 1)
        | .ok false =>
          match wait_for_state target rest with
          | none => none
          | some (r, n) => some (r, n + 1)

/-- A fetch outcome that the loop classifies as in-progress: a successful
fetch whose snapshot's state classifies to `Ok(false)` against the target. -/
def inProgressFetch (target : InstanceStateName)
    (fetch : Except AwsErr Instance) : Prop :=
  ∃ i s, fetch = .ok i ∧ i.stateName = some s ∧ check_state s target = .ok false

/-- A pending snapshot used in concrete runs of the loop. -/
def pendingInstance : Instance :=
  { state := some { name := some .pending }
    ipv6Address := none
    publicIpAddress := none
    privateIpAddress := none }

/-- A running snapshot used in concrete runs of the loop. -/
def runningInstance : Instance :=
  { state := some { name := some .running }
    ipv6Address := none
    publicIpAddress := none
    privateIpAddress := none }

/-- A stopped snapshot used in concrete runs of the loop. -/
def stoppedInstance : Instance :=
  { state := some { name := some .stopped }
    ipv6Address := none
    publicIpAddress := none
    privateIpAddress := none }

/-- C2: if every fetch before position `|pre|+1` is classified in-progress,
then the loop (a) returns the snapshot at that position with exactly
`|pre|+1` fetches when it classifies as arrived, (b) stops with the fetch
error at that position with exactly `|pre|+1` fetches, and (c) stops with
the classification error at that position with exactly `|pre|+1` fetches —
in every case independent of whatever fetches would come later (`rest` is
universally quantified), so no further fetch is performed. -/
theorem wait_for_state_first_decision (target : InstanceStateName)
    (pre : List (Except AwsErr Instance))
    (hpre : ∀ fetch ∈ pre, inProgressFetch target fetch) :
    (∀ (i : Instance) (s : InstanceStateName)
        (rest : List (Except AwsErr Instance)),
      i.stateName = some s → check_state s target = .ok true →
      wait_for_state target (pre ++ .ok i :: rest) =
        some (.arrived i, pre.length + 1)) ∧
    (∀ (e : AwsErr) (rest : List (Except AwsErr Instance)),
      wait_for_state target (pre ++ .error e :: rest) =
        some (.failed e, pre.length + 1)) ∧
    (∀ (i : Instance) (s : InstanceStateName) (e : AwsErr)
        (rest : List (Except AwsErr Instance)),
      i.stateName = some s → check_state s target = .error e →
      wait_for_state target (pre ++ .ok i :: rest) =
        some (.failed e, pre.length + 1)) := by
  induction pre with
  | nil =>
    refine ⟨?_, ?_, ?_⟩
    · intro i s rest hs hc
      simp [wait_for_state, hs, hc]
    · intro e rest
      simp [wait_for_state]
    · intro i s e rest hs hc
      simp [wait_for_state, hs, hc]
  | cons f pre ih =>
    obtain ⟨i0, s0, hf, hs0, hc0⟩ := hpre f (List.mem_cons_self f pre)
    have ih' := ih fun g hg => hpre g (List.mem_cons_of_mem f hg)
    subst hf
    refine ⟨?_, ?_, ?_⟩
    · intro i s rest hs hc
      simp [wait_for_state, hs0, hc0, ih'.1 i s rest hs hc]
    · intro e rest
      simp [wait_for_state, hs0, hc0, ih'.2.1 e rest]
    · intro i s e rest hs hc
      simp [wait_for_state, hs0, hc0, ih'.2.2 i s e rest hs hc]

/-- Witness for `wait_for_state_first_decision`: the spec's two examples.
Fetches [Pending, Pending, Running] with desired Running return the third
snapshot after exactly 3 fetches, and [Pending, Stopped] with desired
Running stops after the second fetch with the abnormal-state error. -/
theorem wait_for_state_first_decision_witness :
    wait_for_state .running [.ok pendingInstance, .ok pendingInstance,
        .ok runningInstance] = some (.arrived runningInstance, 3) ∧
    wait_for_state .running [.ok pendingInstance, .ok stoppedInstance] =
      some (.failed (.abnormalState .stopped .running), 2) := by
  have hpend : inProgressFetch .running (.ok pendingInstance) :=
    ⟨pendingInstance, .pending, rfl, rfl, rfl⟩
  constructor
  · have h := wait_for_state_first_decision .running
      [.ok pendingInstance, .ok pendingInstance]
      (by intro f hf; simp at hf; subst hf; exact hpend)
    exact h.1 runningInstance .running [] rfl rfl
  · have h := wait_for_state_first_decision .running [.ok pendingInstance]
      (by intro f hf; simp at hf; subst hf; exact hpend)
    exact h.2.2 stoppedInstance .stopped
      (.abnormalState .stopped .running) [] rfl rfl

/-- C9: `Instance::state` double-unwraps: the read panics (modelled as
`stateName = none`) exactly when the describe record omits the state field
or the state's name field, and a poll iteration hitting such a snapshot
panics rather than returning any error or arrival value. -/
theorem instance_state_unwrap_panics (i : Instance) :
    (i.stateName = none ↔
      (i.state = none ∨ ∃ st, i.state = some st ∧ st.name = none)) ∧
    (i.stateName = none →
      ∀ (target : InstanceStateName) (rest : List (Except AwsErr Instance)),
        wait_for_state target (.ok i :: rest) = some (.panicked, 1) ∧
        (∀ e n, wait_for_state target (.ok i :: rest) ≠
          some (.failed e, n)) ∧
        (∀ j n, wait_for_state target (.ok i :: rest) ≠
          some (.arrived j, n))) := by
  constructor
  · rcases hst : i.state with _ | st
    · simp [Instance.stateName, hst]
    · cases hn : st.name <;> simp [Instance.stateName, hst, hn]
  · intro h target rest
    refine ⟨by simp [wait_for_state, h], ?_, ?_⟩
    · intro e n
      simp [wait_for_state, h]
    · intro j n
      simp [wait_for_state, h]

/-- A snapshot whose describe record populates no state: reading its state
panics. -/
def statelessInstance : Instance :=
  { state := none
    ipv6Address := none
    publicIpAddress := none
    privateIpAddress := none }

/-- Witness for `instance_state_unwrap_panics` at a snapshot with no state
field. -/
theorem instance_state_unwrap_panics_witness :
    wait_for_state .running [.ok statelessInstance] = some (.panicked, 1) := by
  exact ((instance_state_unwrap_panics statelessInstance).2 rfl .running []).1

/-- Counterexample to C7: with an invalid desired state (Terminated), the
loop raises no error while no fetch has completed (empty fetch sequence:
still polling), and when the first fetch succeeds the invalid-desired
error surfaces only after that fetch — one fetch is performed, not zero,
contradicting "prior to the first state fetch". -/
theorem invalid_desired_not_fail_fast :
    wait_for_state .terminated [] = none ∧
    wait_for_state .terminated [.ok runningInstance] =
      some (.failed (.invalidDesiredState .terminated), 1) ∧
    (1 : Nat) ≠ 0 := by
  refine ⟨rfl, ?_, one_ne_zero⟩
  rfl

/-- C7 as amended: an invalid desired state is detected per-tick inside the
loop, not before polling. With no completed fetch the loop raises nothing,
and the invalid-desired configuration error surfaces at the first
successful fetch's classification, after exactly one fetch, whatever the
observed state is. -/
theorem invalid_desired_per_tick (target : InstanceStateName)
    (h1 : target ≠ .running) (h2 : target ≠ .stopped)
    (i : Instance) (s : InstanceStateName) (hs : i.stateName = some s)
    (rest : List (Except AwsErr Instance)) :
    wait_for_state target [] = none ∧
    check_state s target = .error (.invalidDesiredState target) ∧
    wait_for_state target (.ok i :: rest) =
      some (.failed (.invalidDesiredState target), 1) := by
  have hc : check_state s target = .error (.invalidDesiredState target) := by
    simp [check_state, h1, h2]
  exact ⟨rfl, hc, by simp [wait_for_state, hs, hc]⟩

/-- Witness for `invalid_desired_per_tick` with desired Terminated and a
Running snapshot. -/
theorem invalid_desired_per_tick_witness :
    wait_for_state .terminated [.ok runningInstance] =
      some (.failed (.invalidDesiredState .terminated), 1) := by
  exact (invalid_desired_per_tick .terminated (by simp) (by simp)
    runningInstance .running rfl []).2.2

/-- A describe response carrying a pagination token whose single reservation
holds no instance. -/
def describeTokenEmptyReservation : DescribeInstancesResponse :=
  { reservations := some [{ instances := some [] }]
    nextToken := some "token" }

/-- Counterexample to C8: a response whose single reservation holds zero
instances but which carries a pagination token fails with the
too-many-reservations (AmbiguousResult) error, not with NotFound as the
claim states for the zero-instance case. -/
theorem get_instance_zero_instances_not_notfound :
    get_instance describeTokenEmptyReservation = .error .tooManyReservations ∧
    get_instance describeTokenEmptyReservation ≠ .error .instanceNotFound := by
  constructor
  · rfl
  · intro h
    simp [describeTokenEmptyReservation, get_instance] at h

/-- C8 as amended: `get_instance` succeeds only on exactly one reservation
holding exactly one instance (and no pagination token); it fails with
NotFound on zero reservations, or on a single reservation with zero
instances when no pagination token is present; and with an
AmbiguousResult error on more than one reservation, on a pagination token
alongside at least one reservation, or on more than one instance. -/
theorem get_instance_shape (resp : DescribeInstancesResponse) :
    (∀ i, get_instance resp = .ok i →
      ∃ r, resp.reservations.getD [] = [r] ∧ r.instances.getD [] = [i] ∧
        resp.nextToken = none) ∧
    (resp.reservations.getD [] = [] →
      get_instance resp = .error .instanceNotFound) ∧
    (∀ r, resp.reservations.getD [] = [r] → resp.nextToken = none →
      r.instances.getD [] = [] →
      get_instance resp = .error .instanceNotFound) ∧
    ((resp.reservations.getD []).length > 1 →
      get_instance resp = .error .tooManyReservations) ∧
    (resp.nextToken.isSome = true → resp.reservations.getD [] ≠ [] →
      get_instance resp = .error .tooManyReservations) ∧
    (∀ r, resp.reservations.getD [] = [r] → resp.nextToken = none →
      (r.instances.getD []).length > 1 →
      get_instance resp = .error .tooManyInstances) := by
  refine ⟨?_, ?_, ?_, ?_, ?_, ?_⟩
  · intro i h
    rcases hl : resp.reservations.getD [] with _ | ⟨r, _ | ⟨r', t⟩⟩
    · simp [get_instance, hl] at h
    · rcases htok : resp.nextToken with _ | tok
      · rcases hiv : r.instances.getD [] with _ | ⟨j, _ | ⟨j', t'⟩⟩
        · simp [get_instance, hl, htok, hiv] at h
        · simp [get_instance, hl, htok, hiv] at h
          refine ⟨r, rfl, ?_, rfl⟩
          simp [hiv, h]
        · simp [get_instance, hl, htok, hiv] at h
      · simp [get_instance, hl, htok] at h
    · simp [get_instance, hl] at h
  · intro h
    simp [get_instance, h]
  · intro r hl htok hiv
    simp [get_instance, hl, htok, hiv]
  · intro h
    rcases hl : resp.reservations.getD [] with _ | ⟨r, t⟩
    · simp [hl] at h
    · rw [hl] at h
      simp [get_instance, hl, h]
      intro ht
      rw [ht] at h
      simp at h
  · intro htok hne
    rcases hl : resp.reservations.getD [] with _ | ⟨r, t⟩
    · exact absurd hl hne
    · simp [get_instance, hl, htok]
  · intro r hl htok hiv
    rcases hiv' : r.instances.getD [] with _ | ⟨j, _ | ⟨j', t'⟩⟩ <;>
      rw [hiv'] at hiv <;> simp at hiv
    simp [get_instance, hl, htok, hiv']

/-- Witness for `get_instance_shape`: a response with two reservations is
rejected as ambiguous. -/
theorem get_instance_shape_witness :
    get_instance { reservations := some [{ instances := some [] },
        { instances := some [] }], nextToken := none } =
      .error .tooManyReservations := by
  exact (get_instance_shape _).2.2.2.1 (by simp)

/-- A describe response with a pagination token and no reservations. -/
def describeTokenNoReservations : DescribeInstancesResponse :=
  { reservations := some []
    nextToken := some "token" }

/-- Counterexample to C10 as universally stated: with a pagination token but
zero reservations, the emptiness check fires first and `get_instance`
fails with NotFound, not with the too-many-reservations error. -/
theorem get_instance_token_empty_counterexample :
    get_instance describeTokenNoReservations = .error .instanceNotFound ∧
    get_instance describeTokenNoReservations ≠
      .error .tooManyReservations := by
  constructor
  · rfl
  · intro h
    simp [describeTokenNoReservations, get_instance] at h

/-- C10 as amended: whenever the describe response carries a pagination
token and at least one reservation, `get_instance` fails with the
too-many-reservations error — in particular even when the response holds
exactly one reservation with exactly one instance (with zero reservations
the NotFound check fires first). -/
theorem get_instance_next_token_ambiguous (resp : DescribeInstancesResponse)
    (htok : resp.nextToken.isSome = true)
    (hne : resp.reservations.getD [] ≠ []) :
    get_instance resp = .error .tooManyReservations := by
  rcases hl : resp.reservations.getD [] with _ | ⟨r, t⟩
  · exact absurd hl hne
  · simp [get_instance, hl, htok]

/-- A describe response with a pagination token whose single reservation
holds a single instance. -/
def describeTokenSingleInstance : DescribeInstancesResponse :=
  { reservations := some [{ instances := some [pendingInstance] }]
    nextToken := some "token" }

/-- Witness for `get_instance_next_token_ambiguous`: one reservation with
one instance plus a pagination token is still rejected as ambiguous. -/
theorem get_instance_next_token_ambiguous_witness :
    get_instance describeTokenSingleInstance =
      .error .tooManyReservations := by
  exact get_instance_next_token_ambiguous describeTokenSingleInstance rfl
    (by simp [describeTokenSingleInstance])

/-- Response-shape validation of `start_instance`: success exactly on one
matching record with an accepted state, and the four failure checks in
source order. -/
theorem start_instance_validation (id : String)
    (resp : StartInstancesResponse) :
    (∀ s, start_instance id resp = some (.ok s) ↔
      (∃ c, resp.startingInstances.getD [] = [c] ∧ c.instanceId = some id ∧
        (c.currentState.bind fun st => st.name) = some s ∧
        (s = .pending ∨ s = .running))) ∧
    (resp.startingInstances.getD [] = [] →
      start_instance id resp = some (.error .instanceNotFound)) ∧
    ((resp.startingInstances.getD []).length > 1 →
      start_instance id resp = some (.error .tooManyInstancesStarted)) ∧
    (∀ c j, resp.startingInstances.getD [] = [c] → c.instanceId = some j →
      j ≠ id → start_instance id resp = some (.error .wrongInstanceStarted)) ∧
    (∀ c s, resp.startingInstances.getD [] = [c] → c.instanceId = some id →
      (c.currentState.bind fun st => st.name) = some s →
      s ≠ .pending → s ≠ .running →
      start_instance id resp = some (.error .failedToStart)) := by
  refine ⟨?_, ?_, ?_, ?_, ?_⟩
  · intro s
    constructor
    · intro h
      rcases hl : resp.startingInstances.getD [] with _ | ⟨c, _ | ⟨c', t⟩⟩
      · simp [start_instance, hl] at h
      · rcases hid : c.instanceId with _ | j
        · simp [start_instance, hl, hid] at h
        · by_cases hij : j = id
          · subst hij
            rcases hn : c.currentState.bind fun st => st.name with _ | s'
            · simp [start_instance, hl, hid, hn] at h
            · by_cases hacc : s' ≠ .pending ∧ s' ≠ .running
              · simp [start_instance, hl, hid, hn, hacc] at h
              · rw [not_and_or, not_not, not_not] at hacc
                simp [start_instance, hl, hid, hn,
                  show ¬(s' ≠ InstanceStateName.pending ∧
                    s' ≠ InstanceStateName.running) by
                      rcases hacc with h' | h' <;> subst h' <;> simp] at h
                subst h
                exact ⟨c, rfl, hid, hn, hacc⟩
          · simp [start_instance, hl, hid, hij] at h
      · simp [start_instance, hl] at h
    · rintro ⟨c, hl, hid, hn, hacc⟩
      have hcond : ¬(s ≠ InstanceStateName.pending ∧
          s ≠ InstanceStateName.running) := by
        rcases hacc with h' | h' <;> subst h' <;> simp
      simp [start_instance, hl, hid, hn, hcond]
  · intro h
    simp [start_instance, h]
  · intro h
    rcases hl : resp.startingInstances.getD [] with _ | ⟨c, t⟩
    · simp [hl] at h
    · rw [hl] at h
      simp [start_instance, hl, h]
      intro ht
      rw [ht] at h
      simp at h
  · intro c j hl hid hij
    simp [start_instance, hl, hid, hij]
  · intro c s hl hid hn h1 h2
    simp [start_instance, hl, hid, hn, h1, h2]

/-- Response-shape validation of `stop_instance`: mirror of
`start_instance_validation` with accepted states Stopping and Stopped. -/
theorem stop_instance_validation (id : String)
    (resp : StopInstancesResponse) :
    (∀ s, stop_instance id resp = some (.ok s) ↔
      (∃ c, resp.stoppingInstances.getD [] = [c] ∧ c.instanceId = some id ∧
        (c.currentState.bind fun st => st.name) = some s ∧
        (s = .stopping ∨ s = .stopped))) ∧
    (resp.stoppingInstances.getD [] = [] →
      stop_instance id resp = some (.error .instanceNotFound)) ∧
    ((resp.stoppingInstances.getD []).length > 1 →
      stop_instance id resp = some (.error .tooManyInstancesStopped)) ∧
    (∀ c j, resp.stoppingInstances.getD [] = [c] → c.instanceId = some j →
      j ≠ id → stop_instance id resp = some (.error .wrongInstanceStopped)) ∧
    (∀ c s, resp.stoppingInstances.getD [] = [c] → c.instanceId = some id →
      (c.currentState.bind fun st => st.name) = some s →
      s ≠ .stopping → s ≠ .stopped →
      stop_instance id resp = some (.error .failedToStop)) := by
  refine ⟨?_, ?_, ?_, ?_, ?_⟩
  · intro s
    constructor
    · intro h
      rcases hl : resp.stoppingInstances.getD [] with _ | ⟨c, _ | ⟨c', t⟩⟩
      · simp [stop_instance, hl] at h
      · rcases hid : c.instanceId with _ | j
        · simp [stop_instance, hl, hid] at h
        · by_cases hij : j = id
          · subst hij
            rcases hn : c.currentState.bind fun st => st.name with _ | s'
            · simp [stop_instance, hl, hid, hn] at h
            · by_cases hacc : s' ≠ .stopping ∧ s' ≠ .stopped
              · simp [stop_instance, hl, hid, hn, hacc] at h
              · rw [not_and_or, not_not, not_not] at hacc
                simp [stop_instance, hl, hid, hn,
                  show ¬(s' ≠ InstanceStateName.stopping ∧
                    s' ≠ InstanceStateName.stopped) by
                      rcases hacc with h' | h' <;> subst h' <;> simp] at h
                subst h
                exact ⟨c, rfl, hid, hn, hacc⟩
          · simp [stop_instance, hl, hid, hij] at h
      · simp [stop_instance, hl] at h
    · rintro ⟨c, hl, hid, hn, hacc⟩
      have hcond : ¬(s ≠ InstanceStateName.stopping ∧
          s ≠ InstanceStateName.stopped) := by
        rcases hacc with h' | h' <;> subst h' <;> simp
      simp [stop_instance, hl, hid, hn, hcond]
  · intro h
    simp [stop_instance, h]
  · intro h
    rcases hl : resp.stoppingInstances.getD [] with _ | ⟨c, t⟩
    · simp [hl] at h
    · rw [hl] at h
      simp [stop_instance, hl, h]
      intro ht
      rw [ht] at h
      simp at h
  · intro c j hl hid hij
    simp [stop_instance, hl, hid, hij]
  · intro c s hl hid hn h1 h2
    simp [stop_instance, hl, hid, hn, h1, h2]

/-- C4: `start_instance` returns a state successfully exactly when the
response holds one state-change record whose identifier matches the
request and whose state is Pending or Running, and otherwise fails with
NotFound (zero records), too-many (more than one record), wrong-instance
(identifier differs) or failed-to-start (unaccepted state), in that order
of checks; `stop_instance` mirrors this with Stopping and Stopped. -/
theorem start_stop_response_validation (id : String)
    (startResp : StartInstancesResponse) (stopResp : StopInstancesResponse) :
    ((∀ s, start_instance id startResp = some (.ok s) ↔
      (∃ c, startResp.startingInstances.getD [] = [c] ∧
        c.instanceId = some id ∧
        (c.currentState.bind fun st => st.name) = some s ∧
        (s = .pending ∨ s = .running))) ∧
    (startResp.startingInstances.getD [] = [] →
      start_instance id startResp = some (.error .instanceNotFound)) ∧
    ((startResp.startingInstances.getD []).length > 1 →
      start_instance id startResp = some (.error .tooManyInstancesStarted)) ∧
    (∀ c j, startResp.startingInstances.getD [] = [c] →
      c.instanceId = some j → j ≠ id →
      start_instance id startResp = some (.error .wrongInstanceStarted)) ∧
    (∀ c s, startResp.startingInstances.getD [] = [c] →
      c.instanceId = some id →
      (c.currentState.bind fun st => st.name) = some s →
      s ≠ .pending → s ≠ .running →
      start_instance id startResp = some (.error .failedToStart))) ∧
    ((∀ s, stop_instance id stopResp = some (.ok s) ↔
      (∃ c, stopResp.stoppingInstances.getD [] = [c] ∧
        c.instanceId = some id ∧
        (c.currentState.bind fun st => st.name) = some s ∧
        (s = .stopping ∨ s = .stopped))) ∧
    (stopResp.stoppingInstances.getD [] = [] →
      stop_instance id stopResp = some (.error .instanceNotFound)) ∧
    ((stopResp.stoppingInstances.getD []).length > 1 →
      stop_instance id stopResp = some (.error .tooManyInstancesStopped)) ∧
    (∀ c j, stopResp.stoppingInstances.getD [] = [c] →
      c.instanceId = some j → j ≠ id →
      stop_instance id stopResp = some (.error .wrongInstanceStopped)) ∧
    (∀ c s, stopResp.stoppingInstances.getD [] = [c] →
      c.instanceId = some id →
      (c.currentState.bind fun st => st.name) = some s →
      s ≠ .stopping → s ≠ .stopped →
      stop_instance id stopResp = some (.error .failedToStop))) :=
  ⟨start_instance_validation id startResp, stop_instance_validation id stopResp⟩

/-- A start response whose single record matches the request but reports
state Stopped. -/
def startRespStopped : StartInstancesResponse :=
  { startingInstances :=
      some [{ instanceId := some "i-1"
              currentState := some { name := some .stopped } }] }

/-- A stop response carrying two state-change records. -/
def stopRespTwoRecords : StopInstancesResponse :=
  { stoppingInstances :=
      some [{ instanceId := some "i-1", currentState := none },
            { instanceId := some "i-1", currentState := none }] }

/-- Witness for `start_stop_response_validation`: a start response whose
single record matches the requested identifier with state Stopped is
rejected as failed-to-start, and a stop response with two records is
rejected as ambiguous. -/
theorem start_stop_response_validation_witness :
    start_instance "i-1" startRespStopped = some (.error .failedToStart) ∧
    stop_instance "i-1" stopRespTwoRecords =
      some (.error .tooManyInstancesStopped) := by
  constructor
  · exact (start_stop_response_validation "i-1" startRespStopped
      stopRespTwoRecords).1.2.2.2.2 _ .stopped rfl rfl rfl
      (by simp) (by simp)
  · exact (start_stop_response_validation "i-1" startRespStopped
      stopRespTwoRecords).2.2.2.1 (by simp [stopRespTwoRecords])

/-- Model of `tokio::time::Interval` as used by both poll loops
(`wait_for_state` and `wait_for_connection` each run
`tokio::time::interval(self.wait)` and `tick().await` before every fetch).
Per tokio's documented semantics, the interval's first deadline is the
creation instant, so the first tick completes immediately; each later tick
completes one period after the previous deadline. Time is in abstract
units (model seconds). -/
structure TickInterval where
  period : Nat
  nextDeadline : Nat
deriving DecidableEq

/-- `tokio::time::interval(period)` created at instant `now`: the first
tick's deadline is `now` itself. -/
def TickInterval.new (now period : Nat) : TickInterval :=
  { period := period, nextDeadline := now }

/-- One `tick().await` at instant `now`: completes at the pending deadline
(immediately if the deadline has passed) and schedules the next deadline
one period later. -/
def TickInterval.tick (iv : TickInterval) (now : Nat) : Nat × TickInterval :=
  let t := max now iv.nextDeadline
  (t, { iv with nextDeadline := t + iv.period })

/-- `wait_for_state` instrumented with the interval clock: identical
control flow, additionally returning the instants at which the fetches
are issued. Fetches and classification are modelled as instantaneous, so
the recorded instants are exactly the tick completion times. -/
def wait_for_state_timed (target : InstanceStateName) (iv : TickInterval)
    (now : Nat) :
    List (Except AwsErr Instance) → List Nat × Option (PollResult × Nat)
  | [] => ([], none)
  | fetch :: rest =>
    let tick := iv.tick now
    match fetch with
    | .error e => ([tick.1], some (.failed e, 1))
    | .ok inst =>
      match inst.stateName with
      | none => ([tick.1], some (.panicked, 1))
      | some s =>
        match check_state s target with
        | .error e => ([tick.1], some (.failed e, 1))
        | .ok true => ([tick.1], some (.arrived inst, 1))
        | .ok false =>
          let next := wait_for_state_timed target tick.2 tick.1 rest
          (tick.1 :: next.1,
            match next.2 with
            | none => none
            | some (r, n) => some (r, n + 1))

/-- Fetch instants of a poll loop entered at instant 0: every recorded
fetch instant of a run is `j * period` for its position `j` (0-based),
i.e. the fetch times form an initial segment of 0, period, 2·period, ... -/
theorem wait_for_state_timed_times (target : InstanceStateName)
    (period d now : Nat) (hnd : now ≤ d)
    (fetches : List (Except AwsErr Instance)) :
    ∃ k, (wait_for_state_timed target { period := period, nextDeadline := d }
      now fetches).1 = (List.range k).map fun j => d + j * period := by
  induction fetches generalizing d now with
  | nil => exact ⟨0, rfl⟩
  | cons fetch rest ih =>
    have hmax : max now d = d := Nat.max_eq_right hnd
    rcases fetch with e | inst
    · refine ⟨1, ?_⟩
      simp [wait_for_state_timed, TickInterval.tick, hmax, List.range_succ]
    · rcases hs : inst.stateName with _ | s
      · refine ⟨1, ?_⟩
        simp [wait_for_state_timed, TickInterval.tick, hmax, hs,
          List.range_succ]
      · rcases hc : check_state s target with e | b
        · refine ⟨1, ?_⟩
          simp [wait_for_state_timed, TickInterval.tick, hmax, hs, hc,
            List.range_succ]
        · rcases b with _ | _
          · obtain ⟨k, hk⟩ := ih (d + period) d (Nat.le_add_right d period)
            refine ⟨k + 1, ?_⟩
            simp only [wait_for_state_timed, TickInterval.tick, hmax]
            simp [hs, hc, hk, List.range_succ_eq_map, Nat.mul_comm,
              Nat.mul_add, Nat.add_assoc, Function.comp]
            intro a ha
            ring
          · refine ⟨1, ?_⟩
            simp [wait_for_state_timed, TickInterval.tick, hmax, hs, hc,
            List.range_succ]

/-- `aws_sdk_ssm::types::ConnectionStatus`: a non-exhaustive enum; unknown
values are carried by `other`. -/
inductive ConnectionStatus where
  | connected
  | notConnected
  | other (s : String)
deriving DecidableEq

/-- `AwsSsmClient::get_connection_status` from `src/aws.rs` (lines 204-223),
applied to the optional status of the SSM response: Connected is `true`,
NotConnected is `false`, a missing or unknown status is an error. -/
def get_connection_status (status : Option ConnectionStatus) :
    Except AwsErr Bool :=
  match status with
  | none => .error .ssmReturnedNothing
  | some .connected => .ok true
  | some .notConnected => .ok false
  | some (.other s) => .error (.ssmUnknownStatus s)

/-- `AwsSsmClient::wait_for_connection` from `src/aws.rs` (lines 225-234):
tick, query, return on Connected, loop on NotConnected, propagate any
error. Modelled over the finite sequence of query outcomes (each an SSM
response status or a transport error), returning the outcome and the
number of queries, `none` meaning the loop is still polling. -/
def wait_for_connection :
    List (Except AwsErr (Option ConnectionStatus)) →
      Option (Except AwsErr Unit × Nat)
  | [] => none
  | query :: rest =>
    match query with
    | .error e => some (.error e, 1)
    | .ok status =>
      match get_connection_status status with
      | .error e => some (.error e, 1)
      | .ok true => some (.ok (), 1)
      | .ok false =>
        match wait_for_connection rest with
        | none => none
        | some (r, n) => some (r, n + 1)

/-- `wait_for_connection` instrumented with the interval clock, like
`wait_for_state_timed`. -/
def wait_for_connection_timed (iv : TickInterval) (now : Nat) :
    List (Except AwsErr (Option ConnectionStatus)) →
      List Nat × Option (Except AwsErr Unit × Nat)
  | [] => ([], none)
  | query :: rest =>
    let tick := iv.tick now
    match query with
    | .error e => ([tick.1], some (.error e, 1))
    | .ok status =>
      match get_connection_status status with
      | .error e => ([tick.1], some (.error e, 1))
      | .ok true => ([tick.1], some (.ok (), 1))
      | .ok false =>
        let next := wait_for_connection_timed tick.2 tick.1 rest
        (tick.1 :: next.1,
          match next.2 with
          | none => none
          | some (r, n) => some (r, n + 1))

/-- Query instants of the agent poll loop: every recorded instant is
`d + j * period` for its position `j`. -/
theorem wait_for_connection_timed_times (period d now : Nat) (hnd : now ≤ d)
    (queries : List (Except AwsErr (Option ConnectionStatus))) :
    ∃ k, (wait_for_connection_timed
        { period := period, nextDeadline := d } now queries).1 =
      (List.range k).map fun j => d + j * period := by
  induction queries generalizing d now with
  | nil => exact ⟨0, rfl⟩
  | cons query rest ih =>
    have hmax : max now d = d := Nat.max_eq_right hnd
    rcases query with e | status
    · refine ⟨1, ?_⟩
      simp [wait_for_connection_timed, TickInterval.tick, hmax,
        List.range_succ]
    · rcases hg : get_connection_status status with e | b
      · refine ⟨1, ?_⟩
        simp [wait_for_connection_timed, TickInterval.tick, hmax, hg,
          List.range_succ]
      · rcases b with _ | _
        · obtain ⟨k, hk⟩ := ih (d + period) d (Nat.le_add_right d period)
          refine ⟨k + 1, ?_⟩
          simp only [wait_for_connection_timed, TickInterval.tick, hmax]
          simp [hg, hk, List.range_succ_eq_map, Nat.mul_comm,
            Nat.mul_add, Nat.add_assoc, Function.comp]
          intro a ha
          ring
        · refine ⟨1, ?_⟩
          simp [wait_for_connection_timed, TickInterval.tick, hmax, hg,
            List.range_succ]

/-- Counterexample to C3: with poll interval 10 and fetch sequence
[Pending, Running] toward Running, the fetch instants are 0 and 10 — the
first fetch happens at time zero, not after one full interval, because
tokio's interval completes its first tick immediately. -/
theorem first_fetch_at_time_zero :
    (wait_for_state_timed .running (TickInterval.new 0 10) 0
        [.ok pendingInstance, .ok runningInstance]).1 = [0, 10] ∧
    ¬ (∀ t ∈ (wait_for_state_timed .running (TickInterval.new 0 10) 0
        [.ok pendingInstance, .ok runningInstance]).1, 10 ≤ t) := by
  refine ⟨rfl, fun h => ?_⟩
  have h0 : (10 : Nat) ≤ 0 := h 0 (by rw [show (wait_for_state_timed .running
    (TickInterval.new 0 10) 0 [.ok pendingInstance,
    .ok runningInstance]).1 = [0, 10] from rfl]; simp)
  omega

/-- C3 as amended: in both poll loops the first fetch or query is issued
immediately at loop entry (time zero) — tokio's interval completes its
first tick at once — and the instants form an initial segment of
0, period, 2·period, ... -/
theorem poll_loops_fetch_instants (target : InstanceStateName) (period : Nat)
    (fetches : List (Except AwsErr Instance))
    (queries : List (Except AwsErr (Option ConnectionStatus))) :
    (∃ k, (wait_for_state_timed target (TickInterval.new 0 period) 0
      fetches).1 = (List.range k).map fun j => j * period) ∧
    (fetches ≠ [] →
      ((wait_for_state_timed target (TickInterval.new 0 period) 0
        fetches).1).head? = some 0) ∧
    (∃ k, (wait_for_connection_timed (TickInterval.new 0 period) 0
      queries).1 = (List.range k).map fun j => j * period) ∧
    (queries ≠ [] →
      ((wait_for_connection_timed (TickInterval.new 0 period) 0
        queries).1).head? = some 0) := by
  refine ⟨?_, ?_, ?_, ?_⟩
  · obtain ⟨k, hk⟩ :=
      wait_for_state_timed_times target period 0 0 (Nat.le_refl 0) fetches
    exact ⟨k, by simpa [TickInterval.new] using hk⟩
  · intro hne
    cases fetches with
    | nil => exact absurd rfl hne
    | cons fetch rest =>
      rcases fetch with e | inst
      · simp [wait_for_state_timed, TickInterval.tick, TickInterval.new]
      · rcases hs : inst.stateName with _ | s
        · simp [wait_for_state_timed, TickInterval.tick, TickInterval.new,
            hs]
        · rcases hc : check_state s target with e | b
          · simp [wait_for_state_timed, TickInterval.tick, TickInterval.new,
              hs, hc]
          · rcases b with _ | _ <;>
              simp [wait_for_state_timed, TickInterval.tick,
                TickInterval.new, hs, hc]
  · obtain ⟨k, hk⟩ :=
      wait_for_connection_timed_times period 0 0 (Nat.le_refl 0) queries
    exact ⟨k, by simpa [TickInterval.new] using hk⟩
  · intro hne
    cases queries with
    | nil => exact absurd rfl hne
    | cons query rest =>
      rcases query with e | status
      · simp [wait_for_connection_timed, TickInterval.tick, TickInterval.new]
      · rcases hg : get_connection_status status with e | b
        · simp [wait_for_connection_timed, TickInterval.tick,
            TickInterval.new, hg]
        · rcases b with _ | _ <;>
            simp [wait_for_connection_timed, TickInterval.tick,
              TickInterval.new, hg]

/-- Witness for `poll_loops_fetch_instants`: one-element sequences have
their first (and only) fetch or query at instant 0. -/
theorem poll_loops_fetch_instants_witness :
    ((wait_for_state_timed .running (TickInterval.new 0 10) 0
      [.ok runningInstance]).1).head? = some 0 ∧
    ((wait_for_connection_timed (TickInterval.new 0 10) 0
      [.ok (some .connected)]).1).head? = some 0 := by
  have h := poll_loops_fetch_instants .running 10 [.ok runningInstance]
    [.ok (some .connected)]
  exact ⟨h.2.1 (by simp), h.2.2.2 (by simp)⟩

/-- `Action` from `src/config.rs` (named `CliAction` here because Mathlib
already declares `Action`). -/
inductive CliAction where
  | start
  | stop
deriving DecidableEq

/-- `Config` from `src/config.rs` (named `CliConfig` here to avoid clashing
with Mathlib): the validated CLI input. -/
structure CliConfig where
  action : CliAction
  instanceId : String
  timeout : Nat
  waitForSsm : Bool

/-- The action-to-desired-state mapping in `work` (src/main.rs lines
37-40). -/
def desiredState : CliAction → InstanceStateName
  | .stop => .stopped
  | .start => .running

/-- The lines printed by `work` (src/main.rs), with the formatted values
they carry. -/
inductive OutputLine where
  | startingInstance
  | stoppingInstance
  | waitingForSsm
  | ssmWarning (e : AwsErr)
  | startedInstance (publicIpv4 privateIpv4 ipv6 : String)
  | stoppedInstance
deriving DecidableEq

/-- `work` from `src/main.rs` (lines 36-94), parameterized by the outcomes
of its remote sub-steps (each the outcome the corresponding call would
produce if reached): dispatch the start/stop request (`?` propagates its
error), poll with `wait_for_state` (`?` propagates), then for a start
action optionally wait for SSM — an SSM error is only printed — and
report the started instance's addresses (`unwrap_or("None")`), or print
the stop confirmation. Returns the run's result and the printed lines. -/
def work (config : CliConfig)
    (startOutcome stopOutcome : Except AwsErr InstanceStateName)
    (pollOutcome : Except AwsErr Instance)
    (ssmOutcome : Except AwsErr Unit) :
    Except AwsErr Unit × List OutputLine :=
  let actionLine : OutputLine :=
    match config.action with
    | .start => .startingInstance
    | .stop => .stoppingInstance
  let actionOutcome : Except AwsErr InstanceStateName :=
    match config.action with
    | .start => startOutcome
    | .stop => stopOutcome
  match actionOutcome with
  | .error e => (.error e, [actionLine])
  | .ok _ =>
    match pollOutcome with
    | .error e => (.error e, [actionLine])
    | .ok inst =>
      if config.action = .start then
        let ssmLines : List OutputLine :=
          if config.waitForSsm then
            .waitingForSsm ::
              (match ssmOutcome with
               | .error e => [.ssmWarning e]
               | .ok _ => [])
          else []
        (.ok (), actionLine :: ssmLines ++
          [.startedInstance (inst.publicIpAddress.getD "None")
            (inst.privateIpAddress.getD "None")
            (inst.ipv6Address.getD "None")])
      else
        (.ok (), [actionLine, .stoppedInstance])

/-- `tokio::time::timeout(Duration::from_secs(config.timeout), work(config))`
in `main` (src/main.rs line 17): the work result if the future completes
within the budget, the elapsed error (`none`) otherwise. -/
def timeoutWrap (budget elapsed : Nat) (result : Except AwsErr Unit) :
    Option (Except AwsErr Unit) :=
  if elapsed ≤ budget then some result else none

/-- The failure message `main` prints before exiting. -/
inductive MainMessage where
  | timeoutMsg
  | errorMsg (e : AwsErr)
deriving DecidableEq

/-- The match in `main` (src/main.rs lines 19-31): exit status and printed
failure message for the wrapped result — timeout exits 1, any other error
exits 2, success falls through and the process exits 0. -/
def mainReport (res : Option (Except AwsErr Unit)) :
    Nat × Option MainMessage :=
  match res with
  | none => (1, some .timeoutMsg)
  | some (.error e) => (2, some (.errorMsg e))
  | some (.ok _) => (0, none)

/-- `main` assembled (src/main.rs lines 12-34): one overall timer wraps the
whole of `work`, and its outcome alone determines the exit status. -/
def runMain (config : CliConfig) (elapsed : Nat)
    (startOutcome stopOutcome : Except AwsErr InstanceStateName)
    (pollOutcome : Except AwsErr Instance)
    (ssmOutcome : Except AwsErr Unit) : Nat × Option MainMessage :=
  mainReport (timeoutWrap config.timeout elapsed
    (work config startOutcome stopOutcome pollOutcome ssmOutcome).1)

/-- A stop-action configuration used in concrete runs. -/
def stopConfig : CliConfig :=
  { action := .stop
    instanceId := "i-1"
    timeout := 120
    waitForSsm := false }

/-- A start-action configuration with wait-for-agent enabled. -/
def startSsmConfig : CliConfig :=
  { action := .start
    instanceId := "i-1"
    timeout := 120
    waitForSsm := true }

/-- C5: the whole run executes under the single caller-supplied overall
timeout (`runMain` is exactly `mainReport` of `timeoutWrap` around
`work`), and the exit status is 0 when the sequence completes
successfully in time, 1 with the timeout message when the overall timeout
elapses first, and 2 with the error message for any other propagated
error. -/
theorem run_exit_codes (config : CliConfig) (elapsed : Nat)
    (startOutcome stopOutcome : Except AwsErr InstanceStateName)
    (pollOutcome : Except AwsErr Instance)
    (ssmOutcome : Except AwsErr Unit) :
    (runMain config elapsed startOutcome stopOutcome pollOutcome ssmOutcome =
      mainReport (timeoutWrap config.timeout elapsed
        (work config startOutcome stopOutcome pollOutcome ssmOutcome).1)) ∧
    (¬ elapsed ≤ config.timeout →
      runMain config elapsed startOutcome stopOutcome pollOutcome
        ssmOutcome = (1, some .timeoutMsg)) ∧
    (elapsed ≤ config.timeout →
      (work config startOutcome stopOutcome pollOutcome
        ssmOutcome).1 = .ok () →
      runMain config elapsed startOutcome stopOutcome pollOutcome
        ssmOutcome = (0, none)) ∧
    (∀ e, elapsed ≤ config.timeout →
      (work config startOutcome stopOutcome pollOutcome
        ssmOutcome).1 = .error e →
      runMain config elapsed startOutcome stopOutcome pollOutcome
        ssmOutcome = (2, some (.errorMsg e))) := by
  refine ⟨rfl, ?_, ?_, ?_⟩
  · intro h
    simp [runMain, timeoutWrap, mainReport, h]
  · intro h hw
    simp [runMain, timeoutWrap, mainReport, h, hw]
  · intro e h hw
    simp [runMain, timeoutWrap, mainReport, h, hw]

/-- Witness for `run_exit_codes`: a stop run that completes in time exits
0, and the same run exits 1 when the budget is exceeded. -/
theorem run_exit_codes_witness :
    runMain stopConfig 30 (.ok .pending) (.ok .stopping)
      (.ok stoppedInstance) (.ok ()) = (0, none) ∧
    runMain stopConfig 121 (.ok .pending) (.ok .stopping)
      (.ok stoppedInstance) (.ok ()) = (1, some .timeoutMsg) := by
  constructor
  · exact (run_exit_codes stopConfig 30 (.ok .pending) (.ok .stopping)
      (.ok stoppedInstance) (.ok ())).2.2.1 (by norm_num [stopConfig]) rfl
  · exact (run_exit_codes stopConfig 121 (.ok .pending) (.ok .stopping)
      (.ok stoppedInstance) (.ok ())).2.1 (by norm_num [stopConfig])

/-- C6: for a start action with wait-for-agent enabled, an error from the
agent-connectivity wait is only reported: `work` still returns success
with the SSM warning printed and the started instance's snapshot
reported, and the run exits 0 when within the overall timeout. -/
theorem agent_wait_error_nonfatal (config : CliConfig)
    (ha : config.action = .start) (hw : config.waitForSsm = true)
    (st : InstanceStateName) (stopOutcome : Except AwsErr InstanceStateName)
    (inst : Instance) (e : AwsErr) (elapsed : Nat)
    (ht : elapsed ≤ config.timeout) :
    (work config (.ok st) stopOutcome (.ok inst) (.error e)).1 = .ok () ∧
    OutputLine.ssmWarning e ∈
      (work config (.ok st) stopOutcome (.ok inst) (.error e)).2 ∧
    OutputLine.startedInstance (inst.publicIpAddress.getD "None")
        (inst.privateIpAddress.getD "None") (inst.ipv6Address.getD "None") ∈
      (work config (.ok st) stopOutcome (.ok inst) (.error e)).2 ∧
    runMain config elapsed (.ok st) stopOutcome (.ok inst) (.error e) =
      (0, none) := by
  refine ⟨?_, ?_, ?_, ?_⟩
  · simp [work, ha]
  · simp [work, ha, hw]
  · simp [work, ha, hw]
  · simp [runMain, work, timeoutWrap, mainReport, ha, ht]

/-- Witness for `agent_wait_error_nonfatal`: a start run whose agent wait
fails with a transport error still exits 0 and reports the snapshot. -/
theorem agent_wait_error_nonfatal_witness :
    runMain startSsmConfig 30 (.ok .pending) (.ok .stopping)
      (.ok runningInstance) (.error (.transport "boom")) = (0, none) := by
  exact (agent_wait_error_nonfatal startSsmConfig rfl rfl .pending
    (.ok .stopping) runningInstance (.transport "boom") 30
    (by norm_num [startSsmConfig])).2.2.2
